import Mathlib

/-!
Verification of the AutoSiteFix repository (src/autositefix/wordpress.py and
src/autositefix/cli.py) against its natural-language specification.

Paths are modelled as lists of segments (the `parts` view of a Python
`pathlib.Path`); the filesystem is a pair of a directory set and an
association list from file paths to their text content.  `pathlib` operations
used by the source (`/` join, `mkdir(parents=True, exist_ok=True)`,
`write_text`) become pure state transformers on that filesystem value.
-/

namespace AutoSiteFix

/-- A filesystem path as its list of segments; an absolute path such as
`/tmp/site` carries a leading empty segment, so that joining the segments
with `/` reproduces the textual path. -/
abbrev Path := List String

/-- `str(p)` for a path: its segments joined with `/`. -/
def pathToString (p : Path) : String :=
  String.mk (List.intercalate (['/'] : List Char) (p.map String.data))

/-- `pathlib.Path(s)` for a raw string, as the source's `--output` option
(`type=Path`) builds one: the string split on `/`.  The normalisation
`pathlib` applies on top of the split (collapsing repeated or trailing
slashes and dropping `.` segments) is not modelled; the clean strings for
which the split is already normal are characterised by `cleanPathToken`. -/
def strToPath (s : String) : Path :=
  (s.data.splitOn '/').map (fun cs => String.mk cs)

/-- Strings on which `strToPath` agrees with `pathlib.Path`: every
`/`-separated segment is nonempty and is not `.`, except that a leading
empty segment marks an absolute path. -/
def cleanPathToken (s : String) : Bool :=
  match s.data.splitOn '/' with
  | [] => false
  | first :: rest =>
      (!first.isEmpty || !rest.isEmpty) &&
      !(first == ['.']) &&
      rest.all (fun seg => !seg.isEmpty && !(seg == ['.']))

/-- wordpress.py: `PLUGIN_RELATIVE_PATH = Path("wp-content/plugins/autositefix-fixes")`. -/
def PLUGIN_RELATIVE_PATH : Path := strToPath "wp-content/plugins/autositefix-fixes"

/-- wordpress.py: `PLUGIN_MAIN_FILE = "autositefix-fixes.php"`. -/
def PLUGIN_MAIN_FILE : String := "autositefix-fixes.php"

/-- wordpress.py: `PLUGIN_TEMPLATE`, byte for byte (the Python triple-quoted
literal starts right after the opening quotes with `<?php` and ends with a
newline). -/
def PLUGIN_TEMPLATE : String := "<?php
/**
 * Plugin Name: AutoSiteFix Fixes
 * Description: Auto-generated stub that hooks into wp_head and the_content.
 * Version: 0.1.0
 * Author: AutoSiteFix
 */

if (!defined('ABSPATH')) \x7b
    exit;
\x7d

function autositefix_wp_head_stub() \x7b
    echo \"<!-- AutoSiteFix wp_head hook placeholder -->\"; // phpcs:ignore WordPress.Security.EscapeOutput.OutputNotEscaped
\x7d
add_action('wp_head', 'autositefix_wp_head_stub');

function autositefix_the_content_stub($content) \x7b
    // TODO: Replace with AutoSiteFix content adjustments.
    return $content;
\x7d
add_filter('the_content', 'autositefix_the_content_stub');
"

/-- The filesystem state the generator acts on: the set of existing
directories (as a list) and the files with their text content. -/
structure FS where
  dirs : List Path
  files : List (Path × String)
deriving DecidableEq

/-- Record one directory as existing; creating a directory that already
exists changes nothing (`exist_ok=True`). -/
def insertDir (d : Path) (ds : List Path) : List Path :=
  if d ∈ ds then ds else ds ++ [d]

/-- The nonempty prefixes of a path: the chain of directories
`mkdir(parents=True)` ensures exist. -/
def pathPrefixes : Path → List Path
  | [] => []
  | s :: rest => [s] :: (pathPrefixes rest).map (fun q => s :: q)

/-- `p.mkdir(parents=True, exist_ok=True)`: every directory on the chain
down to `p` is created if absent. -/
def mkdirParents (fs : FS) (p : Path) : FS :=
  { fs with dirs := (pathPrefixes p).foldl (fun ds d => insertDir d ds) fs.dirs }

/-- Overwrite the first entry for `p`, or append a new one. -/
def setFile : List (Path × String) → Path → String → List (Path × String)
  | [], p, c => [(p, c)]
  | e :: rest, p, c => if e.1 = p then (p, c) :: rest else e :: setFile rest p c

/-- `p.write_text(c)`: create the file or replace its content unconditionally. -/
def writeText (fs : FS) (p : Path) (c : String) : FS :=
  { fs with files := setFile fs.files p c }

/-- The content of the file at `p`, when it exists. -/
def lookupFile : List (Path × String) → Path → Option String
  | [], _ => none
  | e :: rest, p => if e.1 = p then some e.2 else lookupFile rest p

/-- The content of the file at `p` in `fs`, when it exists. -/
def readFile (fs : FS) (p : Path) : Option String :=
  lookupFile fs.files p

/-- wordpress.py: `generate_wordpress_plugin(base_directory)`.  Joins the base
directory with `PLUGIN_RELATIVE_PATH`, creates that directory with parents
(`exist_ok=True`), writes `PLUGIN_TEMPLATE` into `PLUGIN_MAIN_FILE` inside it,
and returns the plugin directory.  The filesystem is passed and returned
explicitly. -/
def generate_wordpress_plugin (base_directory : Path) (fs : FS) : FS × Path :=
  let plugin_directory := base_directory ++ PLUGIN_RELATIVE_PATH
  let fs1 := mkdirParents fs plugin_directory
  let fs2 := writeText fs1 (plugin_directory ++ [PLUGIN_MAIN_FILE]) PLUGIN_TEMPLATE
  (fs2, plugin_directory)

/-- A filesystem error (`OSError`): its errno and message, carried opaquely —
the generator never inspects it. -/
structure FsError where
  errno : Nat
  msg : String
deriving DecidableEq

/-- Fault injection for the two syscall sequences the generator performs:
whether (and with which error) directory creation or file writing fails at a
given path.  `none` everywhere models a healthy filesystem. -/
structure FaultModel where
  mkdirFault : Path → Option FsError
  writeFault : Path → Option FsError

/-- The healthy filesystem: no operation fails. -/
def noFaults : FaultModel := ⟨fun _ => none, fun _ => none⟩

/-- `mkdir(parents=True, exist_ok=True)` under fault injection: either the
injected `OSError` is raised, or the directories are created. -/
def mkdirParentsE (fm : FaultModel) (fs : FS) (p : Path) : Except FsError FS :=
  match fm.mkdirFault p with
  | some e => .error e
  | none => .ok (mkdirParents fs p)

/-- `write_text` under fault injection: either the injected `OSError` is
raised, or the content is written. -/
def writeTextE (fm : FaultModel) (fs : FS) (p : Path) (c : String) : Except FsError FS :=
  match fm.writeFault p with
  | some e => .error e
  | none => .ok (writeText fs p c)

/-- `generate_wordpress_plugin` under fault injection.  The two steps run in
the source's order; an exception aborts the sequence and is returned as it
was raised, together with the filesystem state reached so far (the Python
function has no handler and performs no cleanup). -/
def generate_wordpress_pluginE (fm : FaultModel) (base_directory : Path) (fs : FS) :
    Except FsError Path × FS :=
  let plugin_directory := base_directory ++ PLUGIN_RELATIVE_PATH
  match mkdirParentsE fm fs plugin_directory with
  | .error e => (.error e, fs)
  | .ok fs1 =>
    match writeTextE fm fs1 (plugin_directory ++ [PLUGIN_MAIN_FILE]) PLUGIN_TEMPLATE with
    | .error e => (.error e, fs1)
    | .ok fs2 => (.ok plugin_directory, fs2)

/-- cli.py: the structure `argparse` returns from `parse_args` — the
generate-mode flag and the resolved output path. -/
structure Args where
  wordpress : Bool
  output : Path
deriving DecidableEq

/-- Whether `argparse` treats a token as a negative number rather than an
option (the `^-\d+$` case of its matcher; the decimal form `-\d*\.\d+` is not
modelled — no claim mentions it). -/
def looksLikeNegativeNumber (s : String) : Bool :=
  match s.data with
  | '-' :: rest => !rest.isEmpty && rest.all (fun c => 48 ≤ c.toNat && c.toNat ≤ 57)
  | _ => false

/-- Whether `argparse` classifies a token as an option string, and so refuses
to consume it as the value of `--output`: it starts with `-`, is not the
bare `-`, and does not look like a negative number. -/
def looksLikeOption (s : String) : Bool :=
  match s.data with
  | '-' :: rest => !rest.isEmpty && !(looksLikeNegativeNumber s)
  | _ => false

/-- The long options the parser built by cli.py's `build_parser` knows:
its two declared options plus the automatic `--help`. -/
inductive LongOpt where
  | wordpress
  | output
  | help
deriving DecidableEq

/-- `argparse` long-option recognition with its default abbreviation matching
(`allow_abbrev=True`): a token of at least three characters that is a prefix
of exactly one of `--wordpress`, `--output`, `--help` selects that option;
the three start with distinct letters, so no ambiguity arises.  The
`--option=value` spelling and the bare `--` separator are not modelled (both
lead to the same exit status for every claim below). -/
def matchLongOption (t : String) : Option LongOpt :=
  if t.length ≥ 3 && t.data.isPrefixOf "--wordpress".data then some .wordpress
  else if t.length ≥ 3 && t.data.isPrefixOf "--output".data then some .output
  else if t.length ≥ 3 && t.data.isPrefixOf "--help".data then some .help
  else none

/-- How a `parse_args` call ends: a parsed `Args`, the automatic help action
(print help, exit 0), or a parse error (usage to stderr, exit 2). -/
inductive ParseOutcome where
  | ok (args : Args)
  | help
  | error (msg : String)
deriving DecidableEq

/-- Which option, if any, a token selects: the short `-h` or a long-option
match. -/
def classifyToken (t : String) : Option LongOpt :=
  if t = "-h" then some .help else matchLongOption t

/-- The token scan behind `parser.parse_args(argv)` for the parser cli.py's
`build_parser` builds: `--wordpress` is `store_true`, `--output` consumes the
next token unless that token is option-like, `-h`/`--help` trigger the help
action, and any other token is a parse error.  `acc` starts from the
defaults (`wordpress=False`, `output=Path.cwd()`). -/
def scanArgs : List String → Args → ParseOutcome
  | [], acc => .ok acc
  | [t], acc =>
    match classifyToken t with
    | some .help => .help
    | some .wordpress => scanArgs [] { acc with wordpress := true }
    | some .output => .error "argument --output: expected one argument"
    | none => .error ("unrecognized arguments: " ++ t)
  | t :: v :: rest2, acc =>
    match classifyToken t with
    | some .help => .help
    | some .wordpress => scanArgs (v :: rest2) { acc with wordpress := true }
    | some .output =>
      if looksLikeOption v then .error "argument --output: expected one argument"
      else scanArgs rest2 { acc with output := strToPath v }
    | none => .error ("unrecognized arguments: " ++ t)

/-- `build_parser().parse_args(argv)`: the scan started from the defaults,
with `--output` defaulting to the current working directory. -/
def parse_args (cwd : Path) (argv : List String) : ParseOutcome :=
  scanArgs argv ⟨false, cwd⟩

/-- The usage line of the parser cli.py builds (the program name, taken by
`argparse` from `sys.argv[0]`, is modelled as the fixed `autositefix`). -/
def usage_message : String := "usage: autositefix [-h] [--wordpress] [--output OUTPUT]"

/-- The help text the automatic `--help` action prints (modelled as the usage
line followed by the parser description). -/
def help_text : String := usage_message ++ "\n\nAutoSiteFix command line interface"

/-- The message cli.py's `main` passes to `parser.error` when no mode flag
was given. -/
def no_mode_message : String :=
  "No mode selected. Pass --wordpress to generate the WordPress fixes plugin stub."

/-- How a `main` invocation ends at the process boundary: `SystemExit` with a
status (0 on success, 2 from `parser.error` and parse failures, 0 from the
help action), or an uncaught `OSError` from the generator. -/
inductive Outcome where
  | exited (code : Nat)
  | raised (e : FsError)
deriving DecidableEq

/-- Everything observable about one `main` invocation: how it ended, the
lines printed to stdout and to stderr, and the final filesystem. -/
structure RunResult where
  outcome : Outcome
  stdout : List String
  stderr : List String
  fs : FS
deriving DecidableEq

/-- cli.py: `main(argv)`.  Parses the arguments; on the help action prints
help and exits 0; on a parse error, and on `parser.error` when `--wordpress`
is absent, prints the usage line and an error line to stderr and exits 2;
otherwise runs the generator on the parsed output path and, on success,
prints the one report line and returns 0.  An `OSError` from the generator
propagates uncaught. -/
def main (fm : FaultModel) (argv : List String) (cwd : Path) (fs : FS) : RunResult :=
  match parse_args cwd argv with
  | .help => ⟨.exited 0, [help_text], [], fs⟩
  | .error msg => ⟨.exited 2, [], [usage_message, "autositefix: error: " ++ msg], fs⟩
  | .ok args =>
    if args.wordpress = false then
      ⟨.exited 2, [], [usage_message, "autositefix: error: " ++ no_mode_message], fs⟩
    else
      match generate_wordpress_pluginE fm args.output fs with
      | (.error e, fs1) => ⟨.raised e, [], [], fs1⟩
      | (.ok dir, fs1) =>
        ⟨.exited 0, ["Generated WordPress fixes plugin stub at " ++ pathToString dir], [], fs1⟩

/-- Boolean substring test on character lists (Python's `in` on `str`):
whether `sub` occurs contiguously in the second list. -/
def isInfixB (sub : List Char) : List Char → Bool
  | [] => sub.isEmpty
  | c :: rest => sub.isPrefixOf (c :: rest) || isInfixB sub rest

/-- A concrete `OSError` (errno 13) used to exercise the fault model. -/
def permission_denied : FsError := ⟨13, "Permission denied"⟩

/-- A concrete fault model in which writing the plugin main file under the
base directory `tmp` fails with `permission_denied`. -/
def writeFaultModel : FaultModel :=
  ⟨fun _ => none,
   fun p =>
     if p = ["tmp"] ++ PLUGIN_RELATIVE_PATH ++ [PLUGIN_MAIN_FILE] then some permission_denied
     else none⟩

theorem mem_insertDir {x d : Path} {ds : List Path} :
    x ∈ insertDir d ds ↔ x ∈ ds ∨ x = d := by
  by_cases h : d ∈ ds
  · simp only [insertDir, if_pos h]
    exact ⟨fun hx => Or.inl hx, fun hx => hx.elim id (fun he => he ▸ h)⟩
  · simp [insertDir, if_neg h, List.mem_append]

theorem insertDir_eq_of_mem {d : Path} {ds : List Path} (h : d ∈ ds) :
    insertDir d ds = ds := by
  simp [insertDir, if_pos h]

theorem mem_foldl_insertDir {ps ds : List Path} {x : Path} :
    x ∈ ps.foldl (fun a d => insertDir d a) ds ↔ x ∈ ds ∨ x ∈ ps := by
  induction ps generalizing ds with
  | nil => simp
  | cons p ps ih =>
    simp only [List.foldl_cons, ih, mem_insertDir, List.mem_cons]
    tauto

theorem foldl_insertDir_eq {ps ds : List Path} (h : ∀ d ∈ ps, d ∈ ds) :
    ps.foldl (fun a d => insertDir d a) ds = ds := by
  induction ps generalizing ds with
  | nil => rfl
  | cons p ps ih =>
    rw [List.foldl_cons, insertDir_eq_of_mem (h p (by simp))]
    exact ih (fun d hd => h d (by simp [hd]))

theorem mem_pathPrefixes {p q : Path} :
    q ∈ pathPrefixes p ↔ q ≠ [] ∧ q <+: p := by
  induction p generalizing q with
  | nil => simp [pathPrefixes, List.prefix_nil]
  | cons s rest ih =>
    simp only [pathPrefixes, List.mem_cons, List.mem_map]
    constructor
    · rintro (rfl | ⟨q', hq', rfl⟩)
      · exact ⟨by simp, by simp [List.cons_prefix_cons]⟩
      · obtain ⟨hne, hpre⟩ := ih.mp hq'
        exact ⟨by simp, by simp [List.cons_prefix_cons, hpre]⟩
    · rintro ⟨hne, hpre⟩
      rcases q with _ | ⟨a, q'⟩
      · exact absurd rfl hne
      · rw [List.cons_prefix_cons] at hpre
        obtain ⟨rfl, hq'⟩ := hpre
        rcases q' with _ | ⟨b, q''⟩
        · exact Or.inl rfl
        · exact Or.inr ⟨b :: q'', ih.mpr ⟨by simp, hq'⟩, rfl⟩

theorem lookupFile_setFile_self (l : List (Path × String)) (p : Path) (c : String) :
    lookupFile (setFile l p c) p = some c := by
  induction l with
  | nil => simp [setFile, lookupFile]
  | cons e rest ih =>
    by_cases h : e.1 = p
    · simp [setFile, if_pos h, lookupFile]
    · simp [setFile, if_neg h, lookupFile, if_neg h, ih]

theorem lookupFile_setFile_ne (l : List (Path × String)) {p q : Path} (c : String)
    (h : q ≠ p) : lookupFile (setFile l p c) q = lookupFile l q := by
  induction l with
  | nil => simp [setFile, lookupFile, if_neg (Ne.symm h)]
  | cons e rest ih =>
    by_cases he : e.1 = p
    · have hq : ¬e.1 = q := by rw [he]; exact Ne.symm h
      simp [setFile, if_pos he, lookupFile, if_neg (Ne.symm h), if_neg hq]
    · simp only [setFile, if_neg he, lookupFile]
      by_cases hq : e.1 = q
      · simp [if_pos hq]
      · simp [if_neg hq, ih]

theorem setFile_setFile (l : List (Path × String)) (p : Path) (c : String) :
    setFile (setFile l p c) p c = setFile l p c := by
  induction l with
  | nil => simp [setFile]
  | cons e rest ih =>
    by_cases h : e.1 = p
    · simp [setFile, if_pos h]
    · simp [setFile, if_neg h, ih]

theorem mem_dirs_mkdirParents {fs : FS} {p q : Path} :
    q ∈ (mkdirParents fs p).dirs ↔ q ∈ fs.dirs ∨ (q ≠ [] ∧ q <+: p) := by
  simp [mkdirParents, mem_foldl_insertDir, mem_pathPrefixes]

theorem mkdirParents_eq_of_mem {fs : FS} {p : Path}
    (h : ∀ q : Path, q ≠ [] → q <+: p → q ∈ fs.dirs) :
    mkdirParents fs p = fs := by
  unfold mkdirParents
  rw [foldl_insertDir_eq (fun d hd => by
    obtain ⟨hne, hpre⟩ := mem_pathPrefixes.mp hd
    exact h d hne hpre)]

theorem dirs_writeText (fs : FS) (p : Path) (c : String) :
    (writeText fs p c).dirs = fs.dirs := rfl

theorem files_mkdirParents (fs : FS) (p : Path) :
    (mkdirParents fs p).files = fs.files := rfl

theorem readFile_writeText_self (fs : FS) (p : Path) (c : String) :
    readFile (writeText fs p c) p = some c :=
  lookupFile_setFile_self fs.files p c

theorem readFile_writeText_ne (fs : FS) {p q : Path} (c : String) (h : q ≠ p) :
    readFile (writeText fs p c) q = readFile fs q :=
  lookupFile_setFile_ne fs.files c h

theorem readFile_mkdirParents (fs : FS) (p q : Path) :
    readFile (mkdirParents fs p) q = readFile fs q := rfl

theorem FS_ext {a b : FS} (hd : a.dirs = b.dirs) (hf : a.files = b.files) : a = b := by
  cases a; cases b; simp_all

theorem string_mk_data (s : String) : String.mk s.data = s := rfl

theorem intercalate_char_append (c : Char) (xs ys : List (List Char))
    (hx : xs ≠ []) (hy : ys ≠ []) :
    List.intercalate [c] (xs ++ ys) =
      List.intercalate [c] xs ++ c :: List.intercalate [c] ys := by
  induction xs with
  | nil => exact absurd rfl hx
  | cons a xs ih =>
    rcases xs with _ | ⟨b, xs'⟩
    · rcases ys with _ | ⟨y, ys'⟩
      · exact absurd rfl hy
      · simp [List.intercalate, List.intersperse_cons_cons]
    · have h2 : (b :: xs') ≠ [] := by simp
      simp only [List.cons_append, List.intercalate, List.intersperse_cons_cons,
        List.flatten_cons] at ih ⊢
      rw [ih h2]
      simp

theorem pathToString_strToPath (s : String) : pathToString (strToPath s) = s := by
  unfold pathToString strToPath
  rw [List.map_map]
  simp only [Function.comp_def, List.map_id']
  rw [List.intercalate_splitOn]

theorem strToPath_ne_nil (s : String) : strToPath s ≠ [] := by
  unfold strToPath
  simp only [ne_eq, List.map_eq_nil_iff, List.splitOn]
  exact List.splitOnP_ne_nil _ _

theorem pathToString_append {p q : Path} (hp : p ≠ []) (hq : q ≠ []) :
    pathToString (p ++ q) = pathToString p ++ "/" ++ pathToString q := by
  unfold pathToString
  rw [List.map_append,
    intercalate_char_append '/' _ _ (by simpa using hp) (by simpa using hq)]
  have hA : ∀ A B : List Char, String.mk A ++ "/" ++ String.mk B = String.mk (A ++ ['/'] ++ B) :=
    fun A B => rfl
  rw [hA, List.append_assoc]
  rfl

theorem pathToString_strToPath_plugin (v : String) :
    pathToString (strToPath v ++ PLUGIN_RELATIVE_PATH) =
      v ++ "/wp-content/plugins/autositefix-fixes" := by
  rw [pathToString_append (strToPath_ne_nil v) (by decide), pathToString_strToPath]
  have h3 : pathToString PLUGIN_RELATIVE_PATH = "wp-content/plugins/autositefix-fixes" := by
    decide
  rw [h3, String.append_assoc]
  rfl

/-- C1: for every base directory `D` and filesystem, `generate_wordpress_plugin D`
returns `D` joined with the constant relative path, creates the file
`D/wp-content/plugins/autositefix-fixes/autositefix-fixes.php`, and every
intermediate directory on the chain down to the plugin directory exists
afterwards. -/
theorem generate_creates_structure (D : Path) (fs : FS) :
    (generate_wordpress_plugin D fs).2 = D ++ PLUGIN_RELATIVE_PATH ∧
    readFile (generate_wordpress_plugin D fs).1
      (D ++ PLUGIN_RELATIVE_PATH ++ [PLUGIN_MAIN_FILE]) = some PLUGIN_TEMPLATE ∧
    ∀ q : Path, q ≠ [] → q <+: D ++ PLUGIN_RELATIVE_PATH →
      q ∈ (generate_wordpress_plugin D fs).1.dirs := by
  refine ⟨rfl, ?_, ?_⟩
  · simp only [generate_wordpress_plugin]
    exact readFile_writeText_self _ _ _
  · intro q hne hpre
    simp only [generate_wordpress_plugin, dirs_writeText]
    exact mem_dirs_mkdirParents.mpr (Or.inr ⟨hne, hpre⟩)

/-- Witness: `generate_creates_structure` applied at the base directory
`tmp/site`, the empty filesystem, and the intermediate directory `tmp`. -/
theorem generate_creates_structure_witness :
    (generate_wordpress_plugin ["tmp", "site"] ⟨[], []⟩).2 =
      ["tmp", "site"] ++ PLUGIN_RELATIVE_PATH ∧
    readFile (generate_wordpress_plugin ["tmp", "site"] ⟨[], []⟩).1
      (["tmp", "site"] ++ PLUGIN_RELATIVE_PATH ++ [PLUGIN_MAIN_FILE]) = some PLUGIN_TEMPLATE ∧
    ["tmp"] ∈ (generate_wordpress_plugin ["tmp", "site"] ⟨[], []⟩).1.dirs := by
  obtain ⟨h1, h2, h3⟩ := generate_creates_structure ["tmp", "site"] ⟨[], []⟩
  exact ⟨h1, h2, h3 ["tmp"] (by decide) (by decide)⟩

/-- C2: after `generate_wordpress_plugin D`, the content of the plugin main
file is byte-identical to `PLUGIN_TEMPLATE`, whatever the filesystem held
before — in particular a file with arbitrary prior content at the target
path is overwritten unconditionally. -/
theorem generate_overwrites_unconditionally (D : Path) (fs : FS) (prior : String) :
    readFile (generate_wordpress_plugin D fs).1
      (D ++ PLUGIN_RELATIVE_PATH ++ [PLUGIN_MAIN_FILE]) = some PLUGIN_TEMPLATE ∧
    readFile (generate_wordpress_plugin D
        (writeText fs (D ++ PLUGIN_RELATIVE_PATH ++ [PLUGIN_MAIN_FILE]) prior)).1
      (D ++ PLUGIN_RELATIVE_PATH ++ [PLUGIN_MAIN_FILE]) = some PLUGIN_TEMPLATE := by
  constructor
  · simp only [generate_wordpress_plugin]
    exact readFile_writeText_self _ _ _
  · simp only [generate_wordpress_plugin]
    exact readFile_writeText_self _ _ _

/-- C5: running `generate_wordpress_plugin D` on the state its first run
produced changes nothing: the second run returns the same path and leaves the
directory structure and every file, the plugin main file included, exactly as
the first run left them. -/
theorem generate_idempotent (D : Path) (fs : FS) :
    generate_wordpress_plugin D (generate_wordpress_plugin D fs).1 =
      generate_wordpress_plugin D fs := by
  simp only [generate_wordpress_plugin]
  have hmk :
      mkdirParents
        (writeText (mkdirParents fs (D ++ PLUGIN_RELATIVE_PATH))
          (D ++ PLUGIN_RELATIVE_PATH ++ [PLUGIN_MAIN_FILE]) PLUGIN_TEMPLATE)
        (D ++ PLUGIN_RELATIVE_PATH) =
      writeText (mkdirParents fs (D ++ PLUGIN_RELATIVE_PATH))
        (D ++ PLUGIN_RELATIVE_PATH ++ [PLUGIN_MAIN_FILE]) PLUGIN_TEMPLATE := by
    apply mkdirParents_eq_of_mem
    intro q hne hpre
    rw [dirs_writeText]
    exact mem_dirs_mkdirParents.mpr (Or.inr ⟨hne, hpre⟩)
  rw [hmk]
  refine congrArg (fun z => (z, D ++ PLUGIN_RELATIVE_PATH)) (FS_ext rfl ?_)
  simp only [writeText, files_mkdirParents]
  exact setFile_setFile _ _ _

/-- C6: when a filesystem step of the generator fails, the surfaced error is
exactly the error the failing step raised — not caught, translated or
retried — and the filesystem is left as it stood when that step failed: the
original state for a directory-creation failure, the state with the
directories already created for a write failure. -/
theorem generate_error_propagation (fm : FaultModel) (D : Path) (fs : FS) (e : FsError)
    (h : (generate_wordpress_pluginE fm D fs).1 = .error e) :
    (fm.mkdirFault (D ++ PLUGIN_RELATIVE_PATH) = some e ∧
      (generate_wordpress_pluginE fm D fs).2 = fs) ∨
    (fm.mkdirFault (D ++ PLUGIN_RELATIVE_PATH) = none ∧
      fm.writeFault (D ++ PLUGIN_RELATIVE_PATH ++ [PLUGIN_MAIN_FILE]) = some e ∧
      (generate_wordpress_pluginE fm D fs).2 =
        mkdirParents fs (D ++ PLUGIN_RELATIVE_PATH)) := by
  revert h
  simp only [generate_wordpress_pluginE, mkdirParentsE, writeTextE]
  rcases hm : fm.mkdirFault (D ++ PLUGIN_RELATIVE_PATH) with _ | em
  · rcases hw : fm.writeFault (D ++ PLUGIN_RELATIVE_PATH ++ [PLUGIN_MAIN_FILE]) with _ | ew
    · intro h
      exact absurd h (by simp)
    · intro h
      simp only [Except.error.injEq] at h
      exact Or.inr ⟨rfl, h ▸ rfl, rfl⟩
  · intro h
    simp only [Except.error.injEq] at h
    exact Or.inl ⟨h ▸ rfl, rfl⟩

/-- Witness: `generate_error_propagation` under the concrete fault model in
which writing the plugin main file under `tmp` fails with errno 13. -/
theorem generate_error_propagation_witness :
    (writeFaultModel.mkdirFault (["tmp"] ++ PLUGIN_RELATIVE_PATH) = some permission_denied ∧
      (generate_wordpress_pluginE writeFaultModel ["tmp"] ⟨[], []⟩).2 = ⟨[], []⟩) ∨
    (writeFaultModel.mkdirFault (["tmp"] ++ PLUGIN_RELATIVE_PATH) = none ∧
      writeFaultModel.writeFault
        (["tmp"] ++ PLUGIN_RELATIVE_PATH ++ [PLUGIN_MAIN_FILE]) = some permission_denied ∧
      (generate_wordpress_pluginE writeFaultModel ["tmp"] ⟨[], []⟩).2 =
        mkdirParents ⟨[], []⟩ (["tmp"] ++ PLUGIN_RELATIVE_PATH)) :=
  generate_error_propagation writeFaultModel ["tmp"] ⟨[], []⟩ permission_denied rfl

set_option maxRecDepth 8000 in
/-- C7: the file the generator writes is `PLUGIN_TEMPLATE`, whose text starts
with `<?php` and contains both hook registrations: `add_action` on `wp_head`
and `add_filter` on `the_content`. -/
theorem generate_file_hooks (D : Path) (fs : FS) :
    readFile (generate_wordpress_plugin D fs).1
      (D ++ PLUGIN_RELATIVE_PATH ++ [PLUGIN_MAIN_FILE]) = some PLUGIN_TEMPLATE ∧
    "<?php".data.isPrefixOf PLUGIN_TEMPLATE.data = true ∧
    isInfixB "add_action('wp_head', 'autositefix_wp_head_stub');".data
      PLUGIN_TEMPLATE.data = true ∧
    isInfixB "add_filter('the_content', 'autositefix_the_content_stub');".data
      PLUGIN_TEMPLATE.data = true := by
  refine ⟨?_, by decide, by decide, by decide⟩
  simp only [generate_wordpress_plugin]
  exact readFile_writeText_self _ _ _

/-- C9: one generator run touches nothing outside the plugin directory chain
and its main file: every other file keeps its exact content, every directory
that existed before still exists, and every directory existing afterwards
either existed before or lies on the chain down to the plugin directory. -/
theorem generate_frame (D : Path) (fs : FS) :
    (∀ q : Path, q ≠ D ++ PLUGIN_RELATIVE_PATH ++ [PLUGIN_MAIN_FILE] →
      readFile (generate_wordpress_plugin D fs).1 q = readFile fs q) ∧
    (∀ d : Path, d ∈ fs.dirs → d ∈ (generate_wordpress_plugin D fs).1.dirs) ∧
    (∀ d : Path, d ∈ (generate_wordpress_plugin D fs).1.dirs →
      d ∈ fs.dirs ∨ (d ≠ [] ∧ d <+: D ++ PLUGIN_RELATIVE_PATH)) := by
  refine ⟨?_, ?_, ?_⟩
  · intro q hq
    simp only [generate_wordpress_plugin]
    rw [readFile_writeText_ne _ _ hq, readFile_mkdirParents]
  · intro d hd
    simp only [generate_wordpress_plugin, dirs_writeText]
    exact mem_dirs_mkdirParents.mpr (Or.inl hd)
  · intro d hd
    simp only [generate_wordpress_plugin, dirs_writeText] at hd
    exact mem_dirs_mkdirParents.mp hd

/-- Witness: `generate_frame` at a filesystem holding one unrelated file and
one unrelated directory, checking the unrelated file keeps its content and
the unrelated directory survives. -/
theorem generate_frame_witness :
    readFile (generate_wordpress_plugin ["tmp"]
        ⟨[["home"]], [(["home", "note.txt"], "keep me")]⟩).1
      ["home", "note.txt"] =
      readFile ⟨[["home"]], [(["home", "note.txt"], "keep me")]⟩ ["home", "note.txt"] ∧
    ["home"] ∈ (generate_wordpress_plugin ["tmp"]
        ⟨[["home"]], [(["home", "note.txt"], "keep me")]⟩).1.dirs := by
  obtain ⟨h1, h2, _⟩ := generate_frame ["tmp"] ⟨[["home"]], [(["home", "note.txt"], "keep me")]⟩
  exact ⟨h1 ["home", "note.txt"] (by decide), h2 ["home"] (by decide)⟩

/-- C10: the generator's result is determined by the base directory and the
module constants alone — for any two prior filesystem states, both runs
return the same path and leave the same bytes in the plugin main file. -/
theorem generate_insensitive_to_prior_state (D : Path) (fs1 fs2 : FS) :
    (generate_wordpress_plugin D fs1).2 = (generate_wordpress_plugin D fs2).2 ∧
    readFile (generate_wordpress_plugin D fs1).1
        (D ++ PLUGIN_RELATIVE_PATH ++ [PLUGIN_MAIN_FILE]) =
      readFile (generate_wordpress_plugin D fs2).1
        (D ++ PLUGIN_RELATIVE_PATH ++ [PLUGIN_MAIN_FILE]) := by
  refine ⟨rfl, ?_⟩
  simp only [generate_wordpress_plugin]
  rw [readFile_writeText_self, readFile_writeText_self]

theorem scanArgs_no_mode (argv : List String) (acc : Args) :
    (∀ t ∈ argv, classifyToken t ≠ some LongOpt.wordpress) →
    (∀ t ∈ argv, classifyToken t ≠ some LongOpt.help) →
    acc.wordpress = false →
    (∃ msg, scanArgs argv acc = .error msg) ∨
    (∃ args, scanArgs argv acc = .ok args ∧ args.wordpress = false) := by
  induction argv, acc using scanArgs.induct with
  | case1 acc =>
    intro _ _ hacc
    exact Or.inr ⟨acc, rfl, hacc⟩
  | case2 t acc hopt =>
    intro _ hh _
    exact absurd hopt (hh t (by simp))
  | case3 t acc hopt ih =>
    intro hw _ _
    exact absurd hopt (hw t (by simp))
  | case4 t acc hopt =>
    intro _ _ _
    simp only [scanArgs, hopt]
    exact Or.inl ⟨_, rfl⟩
  | case5 t acc hopt =>
    intro _ _ _
    simp only [scanArgs, hopt]
    exact Or.inl ⟨_, rfl⟩
  | case6 t v rest2 acc hopt =>
    intro _ hh _
    exact absurd hopt (hh t (by simp))
  | case7 t v rest2 acc hopt ih =>
    intro hw _ _
    exact absurd hopt (hw t (by simp))
  | case8 t v rest2 acc hopt hv =>
    intro _ _ _
    simp only [scanArgs, hopt, if_pos hv]
    exact Or.inl ⟨_, rfl⟩
  | case9 t v rest2 acc hopt hv ih =>
    intro hw hh hacc
    simp only [scanArgs, hopt, if_neg hv]
    exact ih (fun u hu => hw u (by simp [hu])) (fun u hu => hh u (by simp [hu])) hacc
  | case10 t v rest2 acc hopt =>
    intro _ _ _
    simp only [scanArgs, hopt]
    exact Or.inl ⟨_, rfl⟩

/-- C3 (amended): for every argument list none of whose tokens resolves to
the `--wordpress` flag or to the automatic help option (`-h`, `--help` or an
abbreviation of either long option), the CLI prints the usage line to
standard error, exits with status 2, prints nothing to standard output, and
leaves the filesystem untouched. -/
theorem cli_no_mode_exits_2 (fm : FaultModel) (argv : List String) (cwd : Path) (fs : FS)
    (hw : ∀ t ∈ argv, classifyToken t ≠ some LongOpt.wordpress)
    (hh : ∀ t ∈ argv, classifyToken t ≠ some LongOpt.help) :
    (main fm argv cwd fs).outcome = .exited 2 ∧
    (main fm argv cwd fs).stderr.head? = some usage_message ∧
    (main fm argv cwd fs).stdout = [] ∧
    (main fm argv cwd fs).fs = fs := by
  rcases scanArgs_no_mode argv ⟨false, cwd⟩ hw hh rfl with ⟨msg, hmsg⟩ | ⟨args, hargs, hwp⟩
  · simp [main, parse_args, hmsg]
  · simp [main, parse_args, hargs, hwp]

/-- Witness: `cli_no_mode_exits_2` at the concrete argument list
`--output site`, which selects no mode. -/
theorem cli_no_mode_exits_2_witness :
    (main noFaults ["--output", "site"] ["cwd"] ⟨[], []⟩).outcome = .exited 2 ∧
    (main noFaults ["--output", "site"] ["cwd"] ⟨[], []⟩).stderr.head? = some usage_message ∧
    (main noFaults ["--output", "site"] ["cwd"] ⟨[], []⟩).stdout = [] ∧
    (main noFaults ["--output", "site"] ["cwd"] ⟨[], []⟩).fs = ⟨[], []⟩ :=
  cli_no_mode_exits_2 noFaults ["--output", "site"] ["cwd"] ⟨[], []⟩
    (by decide) (by decide)

/-- C3 counterexample: the argument list `--help` contains no `--wordpress`
flag, yet the CLI exits with status 0 (argparse's automatic help action),
not 2. -/
theorem cli_no_mode_counterexample :
    "--wordpress" ∉ (["--help"] : List String) ∧
    (main noFaults ["--help"] ["cwd"] ⟨[], []⟩).outcome = .exited 0 ∧
    (main noFaults ["--help"] ["cwd"] ⟨[], []⟩).outcome ≠ .exited 2 :=
  ⟨by decide, rfl, by decide⟩

/-- C4 (amended): for every output token that argparse does not classify as
an option string and that is a clean path string (so that splitting on `/`
agrees with `pathlib.Path`'s normalisation), `--wordpress --output P` exits
with status 0 and prints the single report line, which contains the generated
plugin directory path `P/wp-content/plugins/autositefix-fixes`. -/
theorem cli_output_success (v : String) (cwd : Path) (fs : FS)
    (hv : looksLikeOption v = false) (hc : cleanPathToken v = true) :
    (main noFaults ["--wordpress", "--output", v] cwd fs).outcome = .exited 0 ∧
    (main noFaults ["--wordpress", "--output", v] cwd fs).stdout =
      ["Generated WordPress fixes plugin stub at " ++
        (v ++ "/wp-content/plugins/autositefix-fixes")] := by
  have h1 : classifyToken "--wordpress" = some LongOpt.wordpress := by decide
  have h2 : classifyToken "--output" = some LongOpt.output := by decide
  have hscan : scanArgs ["--wordpress", "--output", v] ⟨false, cwd⟩ =
      .ok ⟨true, strToPath v⟩ := by
    simp [scanArgs, h1, h2, hv]
  simp only [main, parse_args, hscan]
  simp [generate_wordpress_pluginE, mkdirParentsE, writeTextE, noFaults,
    pathToString_strToPath_plugin]

/-- Witness: `cli_output_success` at the concrete output token `/tmp/site`,
which is neither option-like nor in need of normalisation. -/
theorem cli_output_success_witness :
    (main noFaults ["--wordpress", "--output", "/tmp/site"] ["cwd"] ⟨[], []⟩).outcome =
      .exited 0 ∧
    (main noFaults ["--wordpress", "--output", "/tmp/site"] ["cwd"] ⟨[], []⟩).stdout =
      ["Generated WordPress fixes plugin stub at " ++
        ("/tmp/site" ++ "/wp-content/plugins/autositefix-fixes")] :=
  cli_output_success "/tmp/site" ["cwd"] ⟨[], []⟩ (by decide) (by decide)

/-- C4 counterexample: for the path token `-x`, argparse refuses it as the
value of `--output` and the CLI exits with status 2, not 0. -/
theorem cli_output_success_counterexample :
    (main noFaults ["--wordpress", "--output", "-x"] ["cwd"] ⟨[], []⟩).outcome = .exited 2 ∧
    (main noFaults ["--wordpress", "--output", "-x"] ["cwd"] ⟨[], []⟩).outcome ≠ .exited 0 :=
  ⟨rfl, by decide⟩

/-- C8: with `--wordpress` and no `--output`, the parser yields the structure
holding the generate-mode flag and the current working directory as the
output path, and generation runs under that directory. -/
theorem cli_output_defaults_to_cwd (cwd : Path) (fs : FS) :
    parse_args cwd ["--wordpress"] = .ok ⟨true, cwd⟩ ∧
    (main noFaults ["--wordpress"] cwd fs).outcome = .exited 0 ∧
    readFile (main noFaults ["--wordpress"] cwd fs).fs
      (cwd ++ PLUGIN_RELATIVE_PATH ++ [PLUGIN_MAIN_FILE]) = some PLUGIN_TEMPLATE := by
  have h1 : classifyToken "--wordpress" = some LongOpt.wordpress := by decide
  have hscan : scanArgs ["--wordpress"] ⟨false, cwd⟩ = .ok ⟨true, cwd⟩ := by
    simp [scanArgs, h1]
  refine ⟨hscan, ?_, ?_⟩
  · simp [main, parse_args, hscan, generate_wordpress_pluginE, mkdirParentsE, writeTextE,
      noFaults]
  · simp only [main, parse_args, hscan]
    simp only [generate_wordpress_pluginE, mkdirParentsE, writeTextE, noFaults]
    exact readFile_writeText_self _ _ _

end AutoSiteFix
